import Mathlib

/-!
Shallow embedding of the gs2 stake-weighted reputation and governance
programs: the identity-registry staking instructions (stake, unstake and
quadratic slashing over the staking pool) and the reputation-registry
decay and multisig instructions. Machine integers are modelled as Nat or
Int together with explicit checked and saturating arithmetic at the u64,
i64, u32 and u8 widths used by the source. Fallible instructions return
Except over the error enums of the source; an error models a reverted
transaction, so no state change is observable on failure. Account
constraints declared in the Accounts structs of the source are modelled
as the first checks of the corresponding instruction, in declaration
order, since the runtime evaluates them before the handler body runs.
-/

-- ========================= definitions =========================

deriving instance DecidableEq for Except

def U64MAX : Nat := 18446744073709551615

def U32MAX : Nat := 4294967295

def U8MAX : Nat := 255

def I64MAX : Int := 9223372036854775807

def I64MIN : Int := -9223372036854775808

/-- Rust u64 checked_add: some on no overflow, none otherwise. -/
def u64CheckedAdd (a b : Nat) : Option Nat :=
  if a + b ≤ U64MAX then some (a + b) else none

/-- Rust u64 checked_sub: some on no underflow, none otherwise. -/
def u64CheckedSub (a b : Nat) : Option Nat :=
  if b ≤ a then some (a - b) else none

/-- Rust u64 checked_mul: some on no overflow, none otherwise. -/
def u64CheckedMul (a b : Nat) : Option Nat :=
  if a * b ≤ U64MAX then some (a * b) else none

/-- Rust u64 saturating_add. -/
def u64SaturatingAdd (a b : Nat) : Nat := min (a + b) U64MAX

/-- Rust u64 saturating_mul. -/
def u64SaturatingMul (a b : Nat) : Nat := min (a * b) U64MAX

/-- Rust u64 saturating_div for a nonzero divisor: plain Nat division. -/
def u64SaturatingDiv (a b : Nat) : Nat := a / b

/-- Rust u32 saturating_add. -/
def u32SaturatingAdd (a b : Nat) : Nat := min (a + b) U32MAX

/-- Rust u32 saturating_sub on Nat values: truncated subtraction. -/
def u32SaturatingSub (a b : Nat) : Nat := a - b

/-- Rust u8 saturating_add. -/
def u8SaturatingAdd (a b : Nat) : Nat := min (a + b) U8MAX

/-- Clamp an Int into the i64 range. -/
def i64Clamp (x : Int) : Int := max I64MIN (min x I64MAX)

/-- Rust i64 checked_add: some when the exact sum fits in i64. -/
def i64CheckedAdd (a b : Int) : Option Int :=
  if I64MIN ≤ a + b ∧ a + b ≤ I64MAX then some (a + b) else none

/-- Rust i64 saturating_sub. -/
def i64SaturatingSub (a b : Int) : Int := i64Clamp (a - b)

/-- Rust i64 saturating_add. -/
def i64SaturatingAdd (a b : Int) : Int := i64Clamp (a + b)

/-- Rust i64 saturating_mul. -/
def i64SaturatingMul (a b : Int) : Int := i64Clamp (a * b)

/-- Rust i64 saturating_div for a nonzero divisor: truncated division
with the single saturating case MIN / -1 clamped to MAX. Rust division
truncates toward zero, which is Int.tdiv. -/
def i64SaturatingDiv (a b : Int) : Int := i64Clamp (Int.tdiv a b)

/-- Constant MIN_STAKE_AMOUNT from identity_registry state.rs. -/
def MIN_STAKE_AMOUNT : Nat := 100000000

/-- Constant STAKE_UNLOCK_PERIOD from identity_registry state.rs: 7 days. -/
def STAKE_UNLOCK_PERIOD : Int := 604800

/-- Constant MAX_SLASH_BPS from identity_registry state.rs. -/
def MAX_SLASH_BPS : Nat := 5000

/-- AgentIdentity account from identity_registry state.rs. Pubkeys are
modelled as Nat; fields not read or written by the staking instructions
(asset address, metadata uri, registration timestamp, bump) are omitted
because no claim depends on them. -/
structure AgentIdentity where
  agent_address : Nat
  last_active_timestamp : Int
  activity_count : Nat
  is_active : Bool
  staked_amount : Nat
  stake_unlock_timestamp : Int
  slash_count : Nat
  total_slashed : Nat

deriving DecidableEq, Repr

/-- StakingPool account from identity_registry state.rs (bump omitted). -/
structure StakingPool where
  authority : Nat
  total_staked : Nat
  total_stakers : Nat
  total_slashed : Nat
  min_stake_amount : Nat
  unlock_period : Int
  is_paused : Bool

deriving DecidableEq, Repr

/-- AgentIdentity helper has_minimum_stake from state.rs. -/
def AgentIdentity.has_minimum_stake (a : AgentIdentity) : Bool :=
  decide (a.staked_amount ≥ MIN_STAKE_AMOUNT)

/-- AgentIdentity helper can_unlock_stake from state.rs: the unlock
timestamp must be strictly positive and already reached. -/
def AgentIdentity.can_unlock_stake (a : AgentIdentity) (current_timestamp : Int) : Bool :=
  decide (a.stake_unlock_timestamp > 0) && decide (current_timestamp ≥ a.stake_unlock_timestamp)

/-- AgentIdentity helper calculate_slash_amount from state.rs: quadratic
curve capped at MAX_SLASH_BPS, applied with checked multiplication; the
checked division by the nonzero constant 10000 never fails, so the
unwrap_or(0) fallback fires exactly when the multiplication overflows. -/
def AgentIdentity.calculate_slash_amount (a : AgentIdentity) (violation_severity_bps : Nat) : Nat :=
  let severity := min violation_severity_bps 10000
  let slash_bps := min (u64SaturatingDiv (u64SaturatingMul severity severity) 10000) MAX_SLASH_BPS
  match u64CheckedMul a.staked_amount slash_bps with
  | some v => v / 10000
  | none => 0

/-- StakingError enum from instructions/stake.rs. -/
inductive StakingError where
  | BelowMinimumStake
  | StakeLocked
  | InsufficientStake
  | UnauthorizedAgent
  | UnauthorizedSlash
  | StakingPaused
  | InvalidSlashSeverity
  | NothingToSlash
  | ArithmeticOverflow

deriving DecidableEq, Repr

/-- initialize_staking_pool from instructions/stake.rs: zeroed counters,
default minimum and unlock period, not paused. -/
def initialize_staking_pool (authority : Nat) : StakingPool :=
  { authority := authority
    total_staked := 0
    total_stakers := 0
    total_slashed := 0
    min_stake_amount := MIN_STAKE_AMOUNT
    unlock_period := STAKE_UNLOCK_PERIOD
    is_paused := false }

/-- stake_collateral from instructions/stake.rs. The StakingPaused
account constraint is checked first; the custody transfer is the
external value-transfer primitive and carries no modelled state. -/
def stake_collateral (pool : StakingPool) (agent : AgentIdentity) (amount : Nat)
    (now : Int) : Except StakingError (StakingPool × AgentIdentity) :=
  if pool.is_paused then .error .StakingPaused
  else
    let effective_min := max pool.min_stake_amount MIN_STAKE_AMOUNT
    if amount < effective_min then .error .BelowMinimumStake
    else
      match u64CheckedAdd agent.staked_amount amount with
      | none => .error .ArithmeticOverflow
      | some newStaked =>
        let unlock_period := if pool.unlock_period > 0 then pool.unlock_period else STAKE_UNLOCK_PERIOD
        match i64CheckedAdd now unlock_period with
        | none => .error .ArithmeticOverflow
        | some newUnlock =>
          match u64CheckedAdd pool.total_staked amount with
          | none => .error .ArithmeticOverflow
          | some newTotal =>
            .ok ({ pool with
                    total_staked := newTotal
                    total_stakers := if agent.staked_amount > 0 then pool.total_stakers
                      else u32SaturatingAdd pool.total_stakers 1 },
                 { agent with
                    staked_amount := newStaked
                    stake_unlock_timestamp := newUnlock
                    last_active_timestamp := now
                    activity_count := u64SaturatingAdd agent.activity_count 1 })

/-- unstake_collateral from instructions/stake.rs. The lamport custody
movements are the external value-transfer primitive and are not part of
the modelled accounts. -/
def unstake_collateral (pool : StakingPool) (agent : AgentIdentity) (amount : Nat)
    (now : Int) : Except StakingError (StakingPool × AgentIdentity) :=
  if agent.can_unlock_stake now = false then .error .StakeLocked
  else if agent.staked_amount < amount then .error .InsufficientStake
  else
    match u64CheckedSub agent.staked_amount amount with
    | none => .error .ArithmeticOverflow
    | some remaining =>
      match u64CheckedSub pool.total_staked amount with
      | none => .error .ArithmeticOverflow
      | some newTotal =>
        .ok ({ pool with
                total_staked := newTotal
                total_stakers := if remaining = 0 then u32SaturatingSub pool.total_stakers 1
                  else pool.total_stakers },
             { agent with
                staked_amount := remaining
                stake_unlock_timestamp := if remaining = 0 then 0 else agent.stake_unlock_timestamp
                last_active_timestamp := now
                activity_count := u64SaturatingAdd agent.activity_count 1 })

/-- slash_agent from instructions/stake.rs: severity validation,
quadratic slash computation, the NothingToSlash and defensive
InsufficientStake guards, then symmetric position and pool updates. -/
def slash_agent (pool : StakingPool) (agent : AgentIdentity) (violation_severity_bps : Nat)
    (_now : Int) : Except StakingError (StakingPool × AgentIdentity) :=
  if violation_severity_bps > 10000 then .error .InvalidSlashSeverity
  else
    let slash_amount := agent.calculate_slash_amount violation_severity_bps
    if slash_amount = 0 then .error .NothingToSlash
    else if agent.staked_amount < slash_amount then .error .InsufficientStake
    else
      match u64CheckedSub agent.staked_amount slash_amount with
      | none => .error .ArithmeticOverflow
      | some newStaked =>
        match u64CheckedAdd agent.total_slashed slash_amount with
        | none => .error .ArithmeticOverflow
        | some newAgentSlashed =>
          match u64CheckedSub pool.total_staked slash_amount with
          | none => .error .ArithmeticOverflow
          | some newPoolStaked =>
            match u64CheckedAdd pool.total_slashed slash_amount with
            | none => .error .ArithmeticOverflow
            | some newPoolSlashed =>
              .ok ({ pool with
                      total_staked := newPoolStaked
                      total_slashed := newPoolSlashed
                      total_stakers := if newStaked = 0 then u32SaturatingSub pool.total_stakers 1
                        else pool.total_stakers },
                   { agent with
                      staked_amount := newStaked
                      slash_count := u32SaturatingAdd agent.slash_count 1
                      total_slashed := newAgentSlashed })

/-- Constant DECAY_HALF_LIFE_DAYS from reputation_registry state/mod.rs. -/
def DECAY_HALF_LIFE_DAYS : Int := 90

/-- Constant DECAY_MIN_SCORE from reputation_registry state/mod.rs. -/
def DECAY_MIN_SCORE : Nat := 100

/-- Constant DECAY_GRACE_PERIOD_DAYS from reputation_registry state/mod.rs. -/
def DECAY_GRACE_PERIOD_DAYS : Int := 30

/-- Constant SECONDS_PER_DAY from reputation_registry state/mod.rs. -/
def SECONDS_PER_DAY : Int := 86400

/-- Constant MAX_MULTISIG_SIGNERS from reputation_registry state/mod.rs. -/
def MAX_MULTISIG_SIGNERS : Nat := 7

/-- Constant PROPOSAL_EXPIRY_SECONDS from reputation_registry state/mod.rs: 48 hours. -/
def PROPOSAL_EXPIRY_SECONDS : Int := 172800

/-- ComponentScores struct from reputation_registry state/mod.rs. -/
structure ComponentScores where
  trust : Nat
  quality : Nat
  reliability : Nat
  economic : Nat
  social : Nat

deriving DecidableEq, Repr

/-- ReputationStats struct from reputation_registry state/mod.rs. -/
structure ReputationStats where
  total_votes : Nat
  positive_votes : Nat
  negative_votes : Nat
  total_reviews : Nat
  avg_review_rating : Nat

deriving DecidableEq, Repr

/-- AgentReputation account from reputation_registry state/mod.rs
(bump omitted; the merkle root is modelled as an opaque Nat since the
instructions only copy it verbatim). -/
structure AgentReputation where
  agent_address : Nat
  overall_score : Nat
  component_scores : ComponentScores
  stats : ReputationStats
  payment_proofs_merkle_root : Nat
  last_updated : Int
  base_score : Nat
  last_activity : Int
  decay_enabled : Bool
  decay_rate_bps : Nat

deriving DecidableEq, Repr

/-- Iterated halving used by calculate_decayed_score: the source runs a
for loop over 0..periods, dividing by 2 with i64 saturating_div. -/
def halveTimes (d : Int) : Nat → Int
  | 0 => d
  | k + 1 => halveTimes (i64SaturatingDiv d 2) k

/-- AgentReputation method calculate_decayed_score from state/mod.rs:
grace period, rate-scaled period count capped at 10 halvings, truncating
cast to u16 and the DECAY_MIN_SCORE floor. -/
def AgentReputation.calculate_decayed_score (r : AgentReputation) (current_time : Int) : Nat :=
  if r.decay_enabled = false then r.base_score
  else
    let days_inactive := i64SaturatingDiv (i64SaturatingSub current_time r.last_activity) SECONDS_PER_DAY
    if days_inactive ≤ DECAY_GRACE_PERIOD_DAYS then r.base_score
    else
      let effective_days := i64SaturatingSub days_inactive DECAY_GRACE_PERIOD_DAYS
      let decay_multiplier : Int := (min (max r.decay_rate_bps 100) 10000 : Nat)
      let periods := i64SaturatingDiv (i64SaturatingMul effective_days decay_multiplier)
        (i64SaturatingMul DECAY_HALF_LIFE_DAYS 10000)
      let decayed := halveTimes (r.base_score : Int) (min periods 10).toNat
      max ((Int.emod decayed 65536).toNat) DECAY_MIN_SCORE

/-- AgentReputation method record_activity from state/mod.rs. -/
def AgentReputation.record_activity (r : AgentReputation) (current_time : Int) : AgentReputation :=
  { r with last_activity := current_time }

/-- AgentReputation method get_effective_score from state/mod.rs. -/
def AgentReputation.get_effective_score (r : AgentReputation) (current_time : Int) : Nat :=
  if r.decay_enabled then r.calculate_decayed_score current_time else r.overall_score

/-- ProposalType enum from reputation_registry state/mod.rs. -/
inductive ProposalType where
  | UpdateReputation
  | AddSigner
  | RemoveSigner
  | UpdateThreshold
  | EmergencyPause

deriving DecidableEq, Repr

/-- ProposalStatus enum from reputation_registry state/mod.rs. -/
inductive ProposalStatus where
  | Pending
  | Approved
  | Executed
  | Rejected
  | Expired

deriving DecidableEq, Repr

/-- MultisigAuthority account from reputation_registry state/mod.rs
(bump omitted; pubkeys modelled as Nat). -/
structure MultisigAuthority where
  signers : List Nat
  threshold : Nat
  proposal_count : Nat
  admin : Nat
  is_active : Bool
  created_at : Int

deriving DecidableEq, Repr

/-- MultisigProposal account from reputation_registry state/mod.rs
(bump omitted; the u8 approval bitmap is a Nat that stays below 256 in
every reachable state because signer indices are below
MAX_MULTISIG_SIGNERS, and a Rust u8 shift by 8 or more would panic). -/
structure MultisigProposal where
  proposal_id : Nat
  proposal_type : ProposalType
  proposer : Nat
  target_agent : Nat
  proposed_score : Nat
  proposed_components : ComponentScores
  proposed_stats : ReputationStats
  proposed_merkle_root : Nat
  target_signer : Nat
  new_threshold : Nat
  approval_bitmap : Nat
  approval_count : Nat
  status : ProposalStatus
  created_at : Int
  executed_at : Int

deriving DecidableEq, Repr

/-- MultisigProposal method has_approved from state/mod.rs: bit test via
bitwise and against 1 shifted by the signer index. -/
def MultisigProposal.has_approved (p : MultisigProposal) (signer_index : Nat) : Bool :=
  decide (p.approval_bitmap &&& (1 <<< signer_index) ≠ 0)

/-- MultisigProposal method record_approval from state/mod.rs: set the
signer bit and saturating-increment the u8 approval count. -/
def MultisigProposal.record_approval (p : MultisigProposal) (signer_index : Nat) : MultisigProposal :=
  { p with
      approval_bitmap := p.approval_bitmap ||| (1 <<< signer_index)
      approval_count := u8SaturatingAdd p.approval_count 1 }

/-- MultisigProposal method is_expired from state/mod.rs. -/
def MultisigProposal.is_expired (p : MultisigProposal) (current_time : Int) : Bool :=
  decide (current_time > i64SaturatingAdd p.created_at PROPOSAL_EXPIRY_SECONDS)

/-- MultisigProposal method has_quorum from state/mod.rs. -/
def MultisigProposal.has_quorum (p : MultisigProposal) (threshold : Nat) : Bool :=
  decide (p.approval_count ≥ threshold)

/-- Error enum of the reputation registry program, merging the
MultisigError, DecayError and ReputationError codes that the modelled
instructions can raise (Anchor flattens all of them into one error
space per program). -/
inductive RepRegistryError where
  | InvalidThreshold
  | MaxSignersReached
  | SignerNotFound
  | SignerAlreadyExists
  | ProposalExpired
  | ProposalAlreadyExecuted
  | AlreadyApproved
  | InsufficientApprovals
  | UnauthorizedSigner
  | UnauthorizedAdmin
  | MultisigPaused
  | WouldGoBelowThreshold
  | InvalidAuthority
  | ArithmeticOverflow
  | DecayNotEnabled
  | InvalidDecayRate
  | UnauthorizedUpdate

deriving DecidableEq, Repr

/-- apply_decay from instructions/decay.rs: permissionless, requires
decay enabled, persists the decayed score into overall_score. -/
def apply_decay (r : AgentReputation) (now : Int) : Except RepRegistryError AgentReputation :=
  if r.decay_enabled = false then .error .DecayNotEnabled
  else .ok { r with
              overall_score := r.calculate_decayed_score now
              last_updated := now }

/-- enable_decay from instructions/decay.rs: validates the rate, anchors
base_score at the current overall_score and resets the activity clock. -/
def enable_decay (r : AgentReputation) (decay_rate_bps : Nat) (now : Int) :
    Except RepRegistryError AgentReputation :=
  if decay_rate_bps < 100 ∨ decay_rate_bps > 10000 then .error .InvalidDecayRate
  else .ok { r with
              base_score := r.overall_score
              last_activity := now
              decay_enabled := true
              decay_rate_bps := decay_rate_bps
              last_updated := now }

/-- propose_reputation_update from instructions/multisig.rs: requires an
active multisig and a proposer from the signer roster, initializes the
proposal, auto-approves with the proposer index, and increments the
proposal counter with checked arithmetic. -/
def propose_reputation_update (ms : MultisigAuthority) (proposer : Nat) (target_agent : Nat)
    (overall_score : Nat) (component_scores : ComponentScores) (stats : ReputationStats)
    (merkle_root : Nat) (now : Int) :
    Except RepRegistryError (MultisigAuthority × MultisigProposal) :=
  if ms.is_active = false then .error .MultisigPaused
  else
    match ms.signers.findIdx? (fun s => s == proposer) with
    | none => .error .UnauthorizedSigner
    | some signer_index =>
      let proposal : MultisigProposal :=
        { proposal_id := ms.proposal_count
          proposal_type := .UpdateReputation
          proposer := proposer
          target_agent := target_agent
          proposed_score := overall_score
          proposed_components := component_scores
          proposed_stats := stats
          proposed_merkle_root := merkle_root
          target_signer := 0
          new_threshold := 0
          approval_bitmap := 0
          approval_count := 0
          status := .Pending
          created_at := now
          executed_at := 0 }
      let proposal := proposal.record_approval signer_index
      match u64CheckedAdd ms.proposal_count 1 with
      | none => .error .ArithmeticOverflow
      | some newCount => .ok ({ ms with proposal_count := newCount }, proposal)

/-- approve_proposal from instructions/multisig.rs. The Pending status
account constraint (error ProposalAlreadyExecuted) is evaluated before
the handler body; the handler then checks expiry, multisig activity,
signer membership and double-approval, records the approval, and flips
the status to Approved exactly when quorum is reached. -/
def approve_proposal (ms : MultisigAuthority) (p : MultisigProposal) (now : Int)
    (signer : Nat) : Except RepRegistryError MultisigProposal :=
  if p.status ≠ .Pending then .error .ProposalAlreadyExecuted
  else if p.is_expired now then .error .ProposalExpired
  else if ms.is_active = false then .error .MultisigPaused
  else
    match ms.signers.findIdx? (fun s => s == signer) with
    | none => .error .UnauthorizedSigner
    | some signer_index =>
      if p.has_approved signer_index then .error .AlreadyApproved
      else
        let p2 := p.record_approval signer_index
        if p2.has_quorum ms.threshold then .ok { p2 with status := .Approved }
        else .ok p2

/-- execute_reputation_proposal from instructions/multisig.rs. The two
account constraints (status Approved, error InsufficientApprovals; type
UpdateReputation, error InvalidAuthority) are evaluated in declaration
order before the handler, which then checks activity and executor
membership, applies the payload to the reputation account, and marks
the proposal Executed. There is no expiry check on this path. -/
def execute_reputation_proposal (ms : MultisigAuthority) (p : MultisigProposal)
    (r : AgentReputation) (now : Int) (executor : Nat) :
    Except RepRegistryError (MultisigProposal × AgentReputation) :=
  if p.status ≠ .Approved then .error .InsufficientApprovals
  else if p.proposal_type ≠ .UpdateReputation then .error .InvalidAuthority
  else if ms.is_active = false then .error .MultisigPaused
  else if ms.signers.contains executor = false then .error .UnauthorizedSigner
  else
    .ok ({ p with status := .Executed, executed_at := now },
         { r with
            overall_score := p.proposed_score
            component_scores := p.proposed_components
            stats := p.proposed_stats
            payment_proofs_merkle_root := p.proposed_merkle_root
            last_updated := now })

/-- Concrete agent for the worked slash example of the spec: one million
units staked. -/
def c3AgentExample : AgentIdentity :=
  { agent_address := 1
    last_active_timestamp := 0
    activity_count := 0
    is_active := true
    staked_amount := 1000000
    stake_unlock_timestamp := 0
    slash_count := 0
    total_slashed := 0 }

/-- Concrete agent holding the maximal u64 stake, on which the checked
multiplication inside calculate_slash_amount overflows for large
severities. -/
def c3AgentHuge : AgentIdentity :=
  { agent_address := 2
    last_active_timestamp := 0
    activity_count := 0
    is_active := true
    staked_amount := 18446744073709551615
    stake_unlock_timestamp := 0
    slash_count := 0
    total_slashed := 0 }

/-- Concrete staking pool consistent with the worked example agent. -/
def c7Pool : StakingPool :=
  { authority := 5
    total_staked := 1000000
    total_stakers := 1
    total_slashed := 0
    min_stake_amount := MIN_STAKE_AMOUNT
    unlock_period := STAKE_UNLOCK_PERIOD
    is_paused := false }

/-- Concrete agent with a positive stake and a zero unlock timestamp,
the state a position is in before any stake or after a full unstake. -/
def c8Agent : AgentIdentity :=
  { agent_address := 3
    last_active_timestamp := 0
    activity_count := 0
    is_active := true
    staked_amount := 200000000
    stake_unlock_timestamp := 0
    slash_count := 0
    total_slashed := 0 }

/-- The pool aggregate invariant: total_staked equals the sum of the
per-position staked amounts. -/
def poolInvariant (pool : StakingPool) (agents : List AgentIdentity) : Prop :=
  pool.total_staked = (agents.map AgentIdentity.staked_amount).sum

/-- Concrete live position used to exercise all three staking ops. -/
def cAgentLive : AgentIdentity :=
  { agent_address := 8
    last_active_timestamp := 0
    activity_count := 0
    is_active := true
    staked_amount := 100000000
    stake_unlock_timestamp := 500
    slash_count := 0
    total_slashed := 0 }

/-- Concrete pool whose aggregate matches the single live position. -/
def cPoolLive : StakingPool :=
  { authority := 7
    total_staked := 100000000
    total_stakers := 1
    total_slashed := 0
    min_stake_amount := MIN_STAKE_AMOUNT
    unlock_period := STAKE_UNLOCK_PERIOD
    is_paused := false }

/-- Pool state after staking 100000000 more into cPoolLive. -/
def cPool1 : StakingPool :=
  { cPoolLive with total_staked := 200000000 }

/-- Position state after cAgentLive stakes 100000000 more at time 1000. -/
def cAgent1 : AgentIdentity :=
  { cAgentLive with
      staked_amount := 200000000
      stake_unlock_timestamp := 605800
      last_active_timestamp := 1000
      activity_count := 1 }

/-- Pool state after cAgentLive fully unstakes at time 1000. -/
def cPool2 : StakingPool :=
  { cPoolLive with total_staked := 0, total_stakers := 0 }

/-- Position state after cAgentLive fully unstakes at time 1000. -/
def cAgent2 : AgentIdentity :=
  { cAgentLive with
      staked_amount := 0
      stake_unlock_timestamp := 0
      last_active_timestamp := 1000
      activity_count := 1 }

/-- Pool state after cAgentLive is slashed at severity 3300. -/
def cPool3 : StakingPool :=
  { cPoolLive with total_staked := 89110000, total_slashed := 10890000 }

/-- Position state after cAgentLive is slashed at severity 3300. -/
def cAgent3 : AgentIdentity :=
  { cAgentLive with
      staked_amount := 89110000
      slash_count := 1
      total_slashed := 10890000 }

/-- Position state after cAgent1 stakes 100000000 more at time 2000. -/
def cAgent2s : AgentIdentity :=
  { cAgentLive with
      staked_amount := 300000000
      stake_unlock_timestamp := 606800
      last_active_timestamp := 2000
      activity_count := 2 }

/-- All-zero component scores. -/
def cComps0 : ComponentScores :=
  { trust := 0, quality := 0, reliability := 0, economic := 0, social := 0 }

/-- All-zero reputation statistics. -/
def cStats0 : ReputationStats :=
  { total_votes := 0, positive_votes := 0, negative_votes := 0, total_reviews := 0
    avg_review_rating := 0 }

/-- Reputation with decay enabled and a base score of 0, as produced by
enabling decay on a freshly initialized (zero score) reputation. -/
def c4Rep0 : AgentReputation :=
  { agent_address := 20
    overall_score := 500
    component_scores := cComps0
    stats := cStats0
    payment_proofs_merkle_root := 0
    last_updated := 0
    base_score := 0
    last_activity := 0
    decay_enabled := true
    decay_rate_bps := 10000 }

/-- State persisted by apply_decay on c4Rep0 at time 0: the grace-period
branch returns base_score without the floor clamp. -/
def c4Rep0After : AgentReputation :=
  { c4Rep0 with overall_score := 0, last_updated := 0 }

/-- Reputation with decay enabled, base score 800 and a long idle span. -/
def c4RepW : AgentReputation :=
  { agent_address := 21
    overall_score := 800
    component_scores := cComps0
    stats := cStats0
    payment_proofs_merkle_root := 0
    last_updated := 0
    base_score := 800
    last_activity := 0
    decay_enabled := true
    decay_rate_bps := 10000 }

/-- State persisted by apply_decay on c4RepW at day 200: one halving
period past the grace window, 800 decays to 400. -/
def c4RepWAfter : AgentReputation :=
  { c4RepW with overall_score := 400, last_updated := 17280000 }

/-- Concrete 5-signer multisig with threshold 3. -/
def cMs5 : MultisigAuthority :=
  { signers := [10, 11, 12, 13, 14]
    threshold := 3
    proposal_count := 0
    admin := 10
    is_active := true
    created_at := 0 }

/-- Concrete approved reputation-update proposal (three approvals). -/
def c2Prop : MultisigProposal :=
  { proposal_id := 0
    proposal_type := .UpdateReputation
    proposer := 10
    target_agent := 99
    proposed_score := 777
    proposed_components := cComps0
    proposed_stats := cStats0
    proposed_merkle_root := 42
    target_signer := 0
    new_threshold := 0
    approval_bitmap := 7
    approval_count := 3
    status := .Approved
    created_at := 0
    executed_at := 0 }

/-- Concrete target reputation before execution. -/
def c2Rep : AgentReputation :=
  { agent_address := 99
    overall_score := 100
    component_scores := cComps0
    stats := cStats0
    payment_proofs_merkle_root := 0
    last_updated := 0
    base_score := 100
    last_activity := 0
    decay_enabled := false
    decay_rate_bps := 0 }

/-- Proposal state after execution at time 1000. -/
def c2PropAfter : MultisigProposal :=
  { c2Prop with status := .Executed, executed_at := 1000 }

/-- Reputation state after execution at time 1000. -/
def c2RepAfter : AgentReputation :=
  { c2Rep with
      overall_score := 777
      component_scores := cComps0
      stats := cStats0
      payment_proofs_merkle_root := 42
      last_updated := 1000 }

/-- Proposal state after the post-expiry execution at time 172801. -/
def c5PropAfter : MultisigProposal :=
  { c2Prop with status := .Executed, executed_at := 172801 }

/-- Reputation state after the post-expiry execution at time 172801. -/
def c5RepAfter : AgentReputation :=
  { c2Rep with
      overall_score := 777
      component_scores := cComps0
      stats := cStats0
      payment_proofs_merkle_root := 42
      last_updated := 172801 }

/-- Multisig state after the proposal is created (counter advanced). -/
def cMs5b : MultisigAuthority :=
  { cMs5 with proposal_count := 1 }

/-- Proposal right after creation: auto-approved by proposer 10. -/
def c6P1 : MultisigProposal :=
  { proposal_id := 0
    proposal_type := .UpdateReputation
    proposer := 10
    target_agent := 99
    proposed_score := 777
    proposed_components := cComps0
    proposed_stats := cStats0
    proposed_merkle_root := 42
    target_signer := 0
    new_threshold := 0
    approval_bitmap := 1
    approval_count := 1
    status := .Pending
    created_at := 0
    executed_at := 0 }

/-- Proposal after the second distinct approval (signer 11). -/
def c6P2 : MultisigProposal :=
  { c6P1 with approval_bitmap := 3, approval_count := 2 }

/-- Proposal after the third distinct approval (signer 12): quorum. -/
def c6P3 : MultisigProposal :=
  { c6P1 with approval_bitmap := 7, approval_count := 3, status := .Approved }

/-- Number of set bits among the 8 bits of a u8 approval bitmap. -/
def popCount8 (b : Nat) : Nat :=
  ((Finset.range 8).filter (fun j => b.testBit j = true)).card

/-- Proposal states reachable through the program: created by
propose_reputation_update and advanced by approve_proposal, always
under a multisig roster within the MAX_MULTISIG_SIGNERS bound that
initialize_multisig and add_signer enforce. -/
inductive ReachableProposal : MultisigProposal → Prop
  | proposed (ms : MultisigAuthority) (proposer target score : Nat) (comps : ComponentScores)
      (stats : ReputationStats) (root : Nat) (now : Int) (ms2 : MultisigAuthority)
      (p : MultisigProposal) (h7 : ms.signers.length ≤ MAX_MULTISIG_SIGNERS)
      (h : propose_reputation_update ms proposer target score comps stats root now = .ok (ms2, p)) :
      ReachableProposal p
  | approved (ms : MultisigAuthority) (p : MultisigProposal) (now : Int) (s : Nat)
      (p2 : MultisigProposal) (h7 : ms.signers.length ≤ MAX_MULTISIG_SIGNERS)
      (hp : ReachableProposal p) (h : approve_proposal ms p now s = .ok p2) :
      ReachableProposal p2

-- ========================= theorems =========================

/-- The squared clamped severity always fits in u64. -/
lemma sevsq_le_u64max (v : Nat) : min v 10000 * min v 10000 ≤ U64MAX := by
  have h1 : min v 10000 ≤ 10000 := min_le_right v 10000
  calc min v 10000 * min v 10000 ≤ 10000 * 10000 := Nat.mul_le_mul h1 h1
    _ ≤ U64MAX := by norm_num [U64MAX]

/-- Closed form of calculate_slash_amount: the slash bps value, applied
with an explicit overflow test coming from the checked multiplication. -/
lemma calc_slash_closed (ag : AgentIdentity) (v : Nat) :
    ag.calculate_slash_amount v =
      if ag.staked_amount * min (min v 10000 * min v 10000 / 10000) MAX_SLASH_BPS ≤ U64MAX
      then ag.staked_amount * min (min v 10000 * min v 10000 / 10000) MAX_SLASH_BPS / 10000
      else 0 := by
  simp only [AgentIdentity.calculate_slash_amount, u64CheckedMul, u64SaturatingMul,
    u64SaturatingDiv]
  rw [Nat.min_eq_left (sevsq_le_u64max v)]
  split_ifs <;> simp

/-- The computed slash amount never exceeds the staked amount. -/
lemma calc_slash_le_staked (ag : AgentIdentity) (v : Nat) :
    ag.calculate_slash_amount v ≤ ag.staked_amount := by
  rw [calc_slash_closed]
  split_ifs with h
  · have hbps : min (min v 10000 * min v 10000 / 10000) MAX_SLASH_BPS ≤ 10000 := by
      have := min_le_right (min v 10000 * min v 10000 / 10000) MAX_SLASH_BPS
      simp only [MAX_SLASH_BPS] at this ⊢
      omega
    calc ag.staked_amount * min (min v 10000 * min v 10000 / 10000) MAX_SLASH_BPS / 10000
        ≤ ag.staked_amount * 10000 / 10000 :=
          Nat.div_le_div_right (Nat.mul_le_mul_left _ hbps)
      _ = ag.staked_amount := Nat.mul_div_cancel ag.staked_amount (by norm_num)
  · exact Nat.zero_le _

/-- C3 counterexample: the claim asserts slash_amount is non-decreasing
in the severity for every fixed staked_amount, but at the maximal u64
stake the severity 100 slashes a positive amount while severity 10000
overflows the checked multiplication and slashes 0, so the function
strictly decreases between the two severities. -/
theorem c3_counterexample :
    (100 : Nat) ≤ 10000 ∧
    c3AgentHuge.calculate_slash_amount 10000 < c3AgentHuge.calculate_slash_amount 100 := by
  decide

/-- C3 (amended): calculate_slash_amount is non-decreasing in the
severity whenever staked_amount times MAX_SLASH_BPS fits in u64 (so
the checked multiplication cannot overflow for any capped bps); for
every agent without restriction the zero severity slashes 0 and the
full severity slashes at most staked_amount times MAX_SLASH_BPS over
10000; and the worked example slashes exactly 108900 of a 1000000
stake at severity 3300. Only the monotonicity conjunct carries the
no-overflow hypothesis. -/
theorem c3_slash_curve_amended (ag : AgentIdentity) (a b : Nat) :
    (a ≤ b → ag.staked_amount * MAX_SLASH_BPS ≤ U64MAX →
      ag.calculate_slash_amount a ≤ ag.calculate_slash_amount b) ∧
    ag.calculate_slash_amount 0 = 0 ∧
    ag.calculate_slash_amount 10000 ≤ ag.staked_amount * MAX_SLASH_BPS / 10000 ∧
    c3AgentExample.calculate_slash_amount 3300 = 108900 := by
  refine ⟨?_, ?_, ?_, by decide⟩
  · intro hab hno
    rw [calc_slash_closed, calc_slash_closed]
    have hsa : min a 10000 ≤ min b 10000 := min_le_min hab le_rfl
    have hsq : min a 10000 * min a 10000 ≤ min b 10000 * min b 10000 := Nat.mul_le_mul hsa hsa
    have hbps : min (min a 10000 * min a 10000 / 10000) MAX_SLASH_BPS
        ≤ min (min b 10000 * min b 10000 / 10000) MAX_SLASH_BPS :=
      min_le_min (Nat.div_le_div_right hsq) le_rfl
    have hA : ag.staked_amount * min (min a 10000 * min a 10000 / 10000) MAX_SLASH_BPS ≤ U64MAX :=
      le_trans (Nat.mul_le_mul_left _ (min_le_right _ _)) hno
    have hB : ag.staked_amount * min (min b 10000 * min b 10000 / 10000) MAX_SLASH_BPS ≤ U64MAX :=
      le_trans (Nat.mul_le_mul_left _ (min_le_right _ _)) hno
    rw [if_pos hA, if_pos hB]
    exact Nat.div_le_div_right (Nat.mul_le_mul_left _ hbps)
  · rw [calc_slash_closed]
    norm_num
  · rw [calc_slash_closed]
    split_ifs with h
    · norm_num [MAX_SLASH_BPS]
    · exact Nat.zero_le _

/-- C3 witness: the amended theorem instantiated at the worked example
stake with severities 100 and 3300. -/
theorem c3_witness :
    (100 : Nat) ≤ 3300 ∧
    c3AgentExample.staked_amount * MAX_SLASH_BPS ≤ U64MAX ∧
    c3AgentExample.calculate_slash_amount 100 ≤ c3AgentExample.calculate_slash_amount 3300 ∧
    c3AgentExample.calculate_slash_amount 0 = 0 ∧
    c3AgentExample.calculate_slash_amount 10000 ≤
      c3AgentExample.staked_amount * MAX_SLASH_BPS / 10000 ∧
    c3AgentExample.calculate_slash_amount 3300 = 108900 :=
  ⟨by decide, by decide,
   (c3_slash_curve_amended c3AgentExample 100 3300).1 (by decide) (by decide),
   (c3_slash_curve_amended c3AgentExample 100 3300).2.1,
   (c3_slash_curve_amended c3AgentExample 100 3300).2.2.1,
   (c3_slash_curve_amended c3AgentExample 100 3300).2.2.2⟩

/-- C7: for every agent and every severity in bounds, the computed
slash amount never exceeds the staked amount, so the defensive
InsufficientStake branch of slash_agent is unreachable, and slash_agent
fails with NothingToSlash exactly when the computed amount is zero. -/
theorem c7_slash_guards (pool : StakingPool) (ag : AgentIdentity) (sev : Nat) (now : Int)
    (hsev : sev ≤ 10000) :
    ag.calculate_slash_amount sev ≤ ag.staked_amount ∧
    (slash_agent pool ag sev now = .error .NothingToSlash ↔ ag.calculate_slash_amount sev = 0) ∧
    slash_agent pool ag sev now ≠ .error .InsufficientStake := by
  have hle := calc_slash_le_staked ag sev
  have hgt : ¬ (sev > 10000) := by omega
  have hnlt : ¬ (ag.staked_amount < ag.calculate_slash_amount sev) := Nat.not_lt.mpr hle
  have hsub1 : u64CheckedSub ag.staked_amount (ag.calculate_slash_amount sev)
      = some (ag.staked_amount - ag.calculate_slash_amount sev) := by
    unfold u64CheckedSub
    rw [if_pos hle]
  refine ⟨hle, ?_, ?_⟩
  · by_cases h0 : ag.calculate_slash_amount sev = 0
    · simp [slash_agent, hgt, h0]
    · simp only [slash_agent, if_neg hgt, if_neg h0, if_neg hnlt, hsub1]
      rcases hx1 : u64CheckedAdd ag.total_slashed (ag.calculate_slash_amount sev) with _ | w1 <;>
        rcases hx2 : u64CheckedSub pool.total_staked (ag.calculate_slash_amount sev) with _ | w2 <;>
          rcases hx3 : u64CheckedAdd pool.total_slashed (ag.calculate_slash_amount sev) with _ | w3 <;>
            simp [h0]
  · by_cases h0 : ag.calculate_slash_amount sev = 0
    · simp [slash_agent, hgt, h0]
    · simp only [slash_agent, if_neg hgt, if_neg h0, if_neg hnlt, hsub1]
      rcases hx1 : u64CheckedAdd ag.total_slashed (ag.calculate_slash_amount sev) with _ | w1 <;>
        rcases hx2 : u64CheckedSub pool.total_staked (ag.calculate_slash_amount sev) with _ | w2 <;>
          rcases hx3 : u64CheckedAdd pool.total_slashed (ag.calculate_slash_amount sev) with _ | w3 <;>
            simp

/-- C7 witness: the guard theorem at the worked example pool and agent
with severity 3300. -/
theorem c7_witness :
    (3300 : Nat) ≤ 10000 ∧
    (c3AgentExample.calculate_slash_amount 3300 ≤ c3AgentExample.staked_amount ∧
     (slash_agent c7Pool c3AgentExample 3300 0 = .error .NothingToSlash ↔
       c3AgentExample.calculate_slash_amount 3300 = 0) ∧
     slash_agent c7Pool c3AgentExample 3300 0 ≠ .error .InsufficientStake) :=
  ⟨by decide, c7_slash_guards c7Pool c3AgentExample 3300 0 (by decide)⟩

/-- C8 counterexample: the claim says the lock check rejects exactly
when now is strictly before the unlock timestamp and that a zero unlock
timestamp is not rejected; but can_unlock_stake requires a strictly
positive timestamp, so at timestamp 0 the call fails StakeLocked even
though now is not before the unlock timestamp. -/
theorem c8_counterexample :
    unstake_collateral c7Pool c8Agent 100000000 100 = .error .StakeLocked ∧
    ¬ ((100 : Int) < c8Agent.stake_unlock_timestamp) ∧
    c8Agent.stake_unlock_timestamp = 0 := by
  decide

/-- C8 (amended): unstake_collateral fails with StakeLocked precisely
when the can_unlock_stake condition fails, that is when the unlock
timestamp is not strictly positive or now is still before it; in
particular a position with unlock timestamp 0 is always rejected by the
lock check, the strict positivity requirement treating 0 as having no
unlocked stake rather than as the absence of a lock. -/
theorem c8_unstake_lock_amended (pool : StakingPool) (ag : AgentIdentity) (amount : Nat)
    (now : Int) :
    unstake_collateral pool ag amount now = .error .StakeLocked ↔
      ¬ (0 < ag.stake_unlock_timestamp ∧ ag.stake_unlock_timestamp ≤ now) := by
  have hcan : ag.can_unlock_stake now = true ↔
      (0 < ag.stake_unlock_timestamp ∧ ag.stake_unlock_timestamp ≤ now) := by
    simp [AgentIdentity.can_unlock_stake]
  by_cases hc : ag.can_unlock_stake now = true
  · have h1 : ¬ (ag.can_unlock_stake now = false) := by simp [hc]
    have hcond := hcan.mp hc
    simp only [unstake_collateral, if_neg h1]
    split_ifs with h2
    · simp [hcond]
    · rcases hx1 : u64CheckedSub ag.staked_amount amount with _ | w1 <;>
        rcases hx2 : u64CheckedSub pool.total_staked amount with _ | w2 <;>
          simp [hcond]
  · have h1 : ag.can_unlock_stake now = false := by
      cases h : ag.can_unlock_stake now
      · rfl
      · exact absurd h hc
    have hcond : ¬ (0 < ag.stake_unlock_timestamp ∧ ag.stake_unlock_timestamp ≤ now) :=
      fun hh => hc (hcan.mpr hh)
    simp [unstake_collateral, h1, hcond]

/-- Inversion for a successful u64 checked_add. -/
lemma u64CheckedAdd_some {a b c : Nat} (h : u64CheckedAdd a b = some c) :
    c = a + b ∧ a + b ≤ U64MAX := by
  unfold u64CheckedAdd at h
  split_ifs at h with hc
  exact ⟨(Option.some.inj h).symm, hc⟩

/-- Inversion for a successful u64 checked_sub. -/
lemma u64CheckedSub_some {a b c : Nat} (h : u64CheckedSub a b = some c) :
    c = a - b ∧ b ≤ a := by
  unfold u64CheckedSub at h
  split_ifs at h with hc
  exact ⟨(Option.some.inj h).symm, hc⟩

/-- Inversion for a successful i64 checked_add. -/
lemma i64CheckedAdd_some {a b c : Int} (h : i64CheckedAdd a b = some c) :
    c = a + b ∧ I64MIN ≤ a + b ∧ a + b ≤ I64MAX := by
  unfold i64CheckedAdd at h
  split_ifs at h with hc
  exact ⟨(Option.some.inj h).symm, hc.1, hc.2⟩

/-- Successful stake_collateral adds the amount to both the position and
the pool aggregate and resets the unlock timestamp to now plus the
effective unlock period. -/
lemma stake_ok_spec (pool : StakingPool) (ag : AgentIdentity) (amt : Nat) (now : Int)
    (pool2 : StakingPool) (a2 : AgentIdentity)
    (h : stake_collateral pool ag amt now = .ok (pool2, a2)) :
    a2.staked_amount = ag.staked_amount + amt ∧
    pool2.total_staked = pool.total_staked + amt ∧
    a2.stake_unlock_timestamp =
      now + (if pool.unlock_period > 0 then pool.unlock_period else STAKE_UNLOCK_PERIOD) := by
  simp only [stake_collateral] at h
  split at h
  · exact absurd h (by simp)
  split at h
  · exact absurd h (by simp)
  rcases hx1 : u64CheckedAdd ag.staked_amount amt with _ | s1
  · simp only [hx1] at h
    exact Except.noConfusion h
  · simp only [hx1] at h
    rcases hx2 : i64CheckedAdd now
        (if pool.unlock_period > 0 then pool.unlock_period else STAKE_UNLOCK_PERIOD) with _ | s2
    · simp only [hx2] at h
      exact Except.noConfusion h
    · simp only [hx2] at h
      rcases hx3 : u64CheckedAdd pool.total_staked amt with _ | s3
      · simp only [hx3] at h
        exact Except.noConfusion h
      · simp only [hx3] at h
        simp only [Except.ok.injEq, Prod.mk.injEq] at h
        obtain ⟨hpool, hagent⟩ := h
        subst hpool
        subst hagent
        obtain ⟨he1, hb1⟩ := u64CheckedAdd_some hx1
        obtain ⟨he2, hb2, hb2b⟩ := i64CheckedAdd_some hx2
        obtain ⟨he3, hb3⟩ := u64CheckedAdd_some hx3
        subst he1
        subst he2
        subst he3
        exact ⟨rfl, rfl, rfl⟩

/-- Successful unstake_collateral subtracts the amount from both the
position and the pool aggregate, and the amount was covered by both. -/
lemma unstake_ok_spec (pool : StakingPool) (ag : AgentIdentity) (amount : Nat) (now : Int)
    (pool2 : StakingPool) (a2 : AgentIdentity)
    (h : unstake_collateral pool ag amount now = .ok (pool2, a2)) :
    amount ≤ ag.staked_amount ∧ amount ≤ pool.total_staked ∧
    a2.staked_amount = ag.staked_amount - amount ∧
    pool2.total_staked = pool.total_staked - amount := by
  simp only [unstake_collateral] at h
  split at h
  · exact absurd h (by simp)
  split at h
  · exact absurd h (by simp)
  rcases hx1 : u64CheckedSub ag.staked_amount amount with _ | s1
  · simp only [hx1] at h
    exact Except.noConfusion h
  · simp only [hx1] at h
    rcases hx2 : u64CheckedSub pool.total_staked amount with _ | s2
    · simp only [hx2] at h
      exact Except.noConfusion h
    · simp only [hx2] at h
      simp only [Except.ok.injEq, Prod.mk.injEq] at h
      obtain ⟨hpool, hagent⟩ := h
      subst hpool
      subst hagent
      obtain ⟨he1, hb1⟩ := u64CheckedSub_some hx1
      obtain ⟨he2, hb2⟩ := u64CheckedSub_some hx2
      subst he1
      subst he2
      exact ⟨hb1, hb2, rfl, rfl⟩

/-- Successful slash_agent subtracts the computed slash amount from both
the position and the pool aggregate, and the amount was covered by both. -/
lemma slash_ok_spec (pool : StakingPool) (ag : AgentIdentity) (sev : Nat) (now : Int)
    (pool2 : StakingPool) (a2 : AgentIdentity)
    (h : slash_agent pool ag sev now = .ok (pool2, a2)) :
    ag.calculate_slash_amount sev ≤ ag.staked_amount ∧
    ag.calculate_slash_amount sev ≤ pool.total_staked ∧
    a2.staked_amount = ag.staked_amount - ag.calculate_slash_amount sev ∧
    pool2.total_staked = pool.total_staked - ag.calculate_slash_amount sev := by
  simp only [slash_agent] at h
  split at h
  · exact absurd h (by simp)
  split at h
  · exact absurd h (by simp)
  split at h
  · exact absurd h (by simp)
  rcases hx1 : u64CheckedSub ag.staked_amount (ag.calculate_slash_amount sev) with _ | s1
  · simp only [hx1] at h
    exact Except.noConfusion h
  · simp only [hx1] at h
    rcases hx2 : u64CheckedAdd ag.total_slashed (ag.calculate_slash_amount sev) with _ | s2
    · simp only [hx2] at h
      exact Except.noConfusion h
    · simp only [hx2] at h
      rcases hx3 : u64CheckedSub pool.total_staked (ag.calculate_slash_amount sev) with _ | s3
      · simp only [hx3] at h
        exact Except.noConfusion h
      · simp only [hx3] at h
        rcases hx4 : u64CheckedAdd pool.total_slashed (ag.calculate_slash_amount sev) with _ | s4
        · simp only [hx4] at h
          exact Except.noConfusion h
        · simp only [hx4] at h
          simp only [Except.ok.injEq, Prod.mk.injEq] at h
          obtain ⟨hpool, hagent⟩ := h
          subst hpool
          subst hagent
          obtain ⟨he1, hb1⟩ := u64CheckedSub_some hx1
          obtain ⟨he3, hb3⟩ := u64CheckedSub_some hx3
          subst he1
          subst he3
          exact ⟨hb1, hb3, rfl, rfl⟩

/-- Setting one element of a list changes the sum of staked amounts by
exactly the difference between the new and old element. -/
lemma sum_map_set (l : List AgentIdentity) (i : Nat) (a : AgentIdentity) (h : i < l.length) :
    ((l.set i a).map AgentIdentity.staked_amount).sum + l[i].staked_amount
      = (l.map AgentIdentity.staked_amount).sum + a.staked_amount := by
  induction l generalizing i with
  | nil => simp at h
  | cons b t ih =>
    cases i with
    | zero =>
      simp [List.set]
      omega
    | succ j =>
      have hlen : (b :: t).length = t.length + 1 := rfl
      have hj : j < t.length := by omega
      have hih := ih j hj
      simp only [List.set, List.map_cons, List.sum_cons, List.getElem_cons_succ]
      omega

/-- C1: the staking pool aggregate equals the per-position sum as an
invariant. The freshly initialized pool with no positions satisfies it,
and every successful stake_collateral, unstake_collateral and
slash_agent call moves the pool aggregate by exactly the amount it moves
the single touched position, so the invariant is preserved by each. -/
theorem c1_pool_sum_invariant (auth : Nat) (pool : StakingPool) (agents : List AgentIdentity)
    (i amt sev : Nat) (now : Int) (p1 p2 p3 : StakingPool) (a1 a2 a3 : AgentIdentity)
    (hi : i < agents.length) (hinv : poolInvariant pool agents) :
    poolInvariant (initialize_staking_pool auth) [] ∧
    (stake_collateral pool agents[i] amt now = .ok (p1, a1) →
      p1.total_staked = pool.total_staked + amt ∧
      a1.staked_amount = agents[i].staked_amount + amt ∧
      poolInvariant p1 (agents.set i a1)) ∧
    (unstake_collateral pool agents[i] amt now = .ok (p2, a2) →
      pool.total_staked = p2.total_staked + amt ∧
      agents[i].staked_amount = a2.staked_amount + amt ∧
      poolInvariant p2 (agents.set i a2)) ∧
    (slash_agent pool agents[i] sev now = .ok (p3, a3) →
      pool.total_staked = p3.total_staked + agents[i].calculate_slash_amount sev ∧
      agents[i].staked_amount = a3.staked_amount + agents[i].calculate_slash_amount sev ∧
      poolInvariant p3 (agents.set i a3)) := by
  refine ⟨rfl, ?_, ?_, ?_⟩
  · intro h
    obtain ⟨hA, hP, -⟩ := stake_ok_spec _ _ _ _ _ _ h
    have hs := sum_map_set agents i a1 hi
    unfold poolInvariant at hinv ⊢
    exact ⟨by omega, by omega, by omega⟩
  · intro h
    obtain ⟨hle, hle2, hA, hP⟩ := unstake_ok_spec _ _ _ _ _ _ h
    have hs := sum_map_set agents i a2 hi
    unfold poolInvariant at hinv ⊢
    exact ⟨by omega, by omega, by omega⟩
  · intro h
    obtain ⟨hle, hle2, hA, hP⟩ := slash_ok_spec _ _ _ _ _ _ h
    have hs := sum_map_set agents i a3 hi
    unfold poolInvariant at hinv ⊢
    exact ⟨by omega, by omega, by omega⟩

/-- C1 witness: one pool with one live position; all three instructions
succeed concretely with the stated results, and the invariant theorem
applies at these values. -/
theorem c1_witness :
    stake_collateral cPoolLive cAgentLive 100000000 1000 = .ok (cPool1, cAgent1) ∧
    unstake_collateral cPoolLive cAgentLive 100000000 1000 = .ok (cPool2, cAgent2) ∧
    slash_agent cPoolLive cAgentLive 3300 1000 = .ok (cPool3, cAgent3) ∧
    (poolInvariant (initialize_staking_pool 7) [] ∧
     (stake_collateral cPoolLive [cAgentLive][0] 100000000 1000 = .ok (cPool1, cAgent1) →
       cPool1.total_staked = cPoolLive.total_staked + 100000000 ∧
       cAgent1.staked_amount = [cAgentLive][0].staked_amount + 100000000 ∧
       poolInvariant cPool1 ([cAgentLive].set 0 cAgent1)) ∧
     (unstake_collateral cPoolLive [cAgentLive][0] 100000000 1000 = .ok (cPool2, cAgent2) →
       cPoolLive.total_staked = cPool2.total_staked + 100000000 ∧
       [cAgentLive][0].staked_amount = cAgent2.staked_amount + 100000000 ∧
       poolInvariant cPool2 ([cAgentLive].set 0 cAgent2)) ∧
     (slash_agent cPoolLive [cAgentLive][0] 3300 1000 = .ok (cPool3, cAgent3) →
       cPoolLive.total_staked = cPool3.total_staked + [cAgentLive][0].calculate_slash_amount 3300 ∧
       [cAgentLive][0].staked_amount = cAgent3.staked_amount +
         [cAgentLive][0].calculate_slash_amount 3300 ∧
       poolInvariant cPool3 ([cAgentLive].set 0 cAgent3))) :=
  ⟨by decide, by decide, by decide,
   c1_pool_sum_invariant 7 cPoolLive [cAgentLive] 0 100000000 3300 1000
     cPool1 cPool2 cPool3 cAgent1 cAgent2 cAgent3 (by decide) rfl⟩

/-- C9: staking additional collateral never shortens the lock. For two
successive successful stake_collateral calls, the second acting on the
position written by the first, with the pool unlock period unchanged
between the calls (no instruction of the program ever rewrites it after
initialization) and with chain time non-decreasing, the unlock timestamp
written by the later contribution is at least the one in force before. -/
theorem c9_monotonic_lock (poolA poolB p1 p2 : StakingPool) (ag a1 a2 : AgentIdentity)
    (amt1 amt2 : Nat) (t1 t2 : Int)
    (h1 : stake_collateral poolA ag amt1 t1 = .ok (p1, a1))
    (h2 : stake_collateral poolB a1 amt2 t2 = .ok (p2, a2))
    (hp : poolB.unlock_period = poolA.unlock_period)
    (ht : t1 ≤ t2) :
    a1.stake_unlock_timestamp ≤ a2.stake_unlock_timestamp := by
  obtain ⟨-, -, hu1⟩ := stake_ok_spec _ _ _ _ _ _ h1
  obtain ⟨-, -, hu2⟩ := stake_ok_spec _ _ _ _ _ _ h2
  rw [hp] at hu2
  split_ifs at hu1 hu2 <;> omega

/-- C9 witness: two successive concrete stakes at times 1000 and 2000;
the unlock timestamp moves from 605800 to 606800. -/
theorem c9_witness :
    stake_collateral cPoolLive cAgentLive 100000000 1000 = .ok (cPool1, cAgent1) ∧
    stake_collateral cPoolLive cAgent1 100000000 2000 = .ok (cPool1, cAgent2s) ∧
    cAgent1.stake_unlock_timestamp ≤ cAgent2s.stake_unlock_timestamp :=
  ⟨by decide, by decide,
   c9_monotonic_lock cPoolLive cPoolLive cPool1 cPool1 cAgentLive cAgent1 cAgent2s
     100000000 100000000 1000 2000 (by decide) (by decide) rfl (by decide)⟩

/-- C4 counterexample: decay is enabled and apply_decay runs
successfully, yet the persisted overall_score is 0, below
DECAY_MIN_SCORE, because the grace-period branch of
calculate_decayed_score returns base_score without applying the floor. -/
theorem c4_counterexample :
    apply_decay c4Rep0 0 = .ok c4Rep0After ∧
    c4Rep0After.overall_score < DECAY_MIN_SCORE ∧
    c4Rep0.decay_enabled = true := by
  decide

/-- Within the grace period the decayed score is exactly the base score. -/
lemma decayed_score_grace (r : AgentReputation) (now : Int) (hen : r.decay_enabled = true)
    (hg : i64SaturatingDiv (i64SaturatingSub now r.last_activity) SECONDS_PER_DAY ≤
      DECAY_GRACE_PERIOD_DAYS) :
    r.calculate_decayed_score now = r.base_score := by
  unfold AgentReputation.calculate_decayed_score
  rw [hen]
  simp [hg]

/-- Past the grace period the decayed score respects the floor. -/
lemma decayed_score_post_grace (r : AgentReputation) (now : Int) (hen : r.decay_enabled = true)
    (hg : ¬ (i64SaturatingDiv (i64SaturatingSub now r.last_activity) SECONDS_PER_DAY ≤
      DECAY_GRACE_PERIOD_DAYS)) :
    DECAY_MIN_SCORE ≤ r.calculate_decayed_score now := by
  unfold AgentReputation.calculate_decayed_score
  rw [hen]
  simp [hg]

/-- Bounds on calculate_decayed_score when decay is enabled: the result
is never below the minimum of base_score and the floor, and once the
computed inactive days exceed the grace period the floor itself holds. -/
lemma decayed_score_bounds (r : AgentReputation) (now : Int) (hen : r.decay_enabled = true) :
    min r.base_score DECAY_MIN_SCORE ≤ r.calculate_decayed_score now ∧
    (DECAY_GRACE_PERIOD_DAYS <
        i64SaturatingDiv (i64SaturatingSub now r.last_activity) SECONDS_PER_DAY →
      DECAY_MIN_SCORE ≤ r.calculate_decayed_score now) := by
  by_cases hg : i64SaturatingDiv (i64SaturatingSub now r.last_activity) SECONDS_PER_DAY ≤
      DECAY_GRACE_PERIOD_DAYS
  · rw [decayed_score_grace r now hen hg]
    exact ⟨min_le_left _ _, fun hd => by omega⟩
  · have h2 := decayed_score_post_grace r now hen hg
    exact ⟨le_trans (min_le_right _ _) h2, fun _ => h2⟩

/-- C4 (amended): after any successful apply_decay the persisted
overall_score is at least min(base_score, DECAY_MIN_SCORE); it is at
least DECAY_MIN_SCORE whenever the computed days of inactivity exceed
the 30-day grace period, but within the grace period it equals
base_score, which may lie below the floor. -/
theorem c4_decay_floor_amended (r : AgentReputation) (now : Int) (r2 : AgentReputation)
    (h : apply_decay r now = .ok r2) :
    min r.base_score DECAY_MIN_SCORE ≤ r2.overall_score ∧
    (DECAY_GRACE_PERIOD_DAYS <
        i64SaturatingDiv (i64SaturatingSub now r.last_activity) SECONDS_PER_DAY →
      DECAY_MIN_SCORE ≤ r2.overall_score) := by
  simp only [apply_decay] at h
  split at h
  · exact absurd h (by simp)
  rename_i hen
  simp only [Except.ok.injEq] at h
  subst h
  have hen2 : r.decay_enabled = true := by
    cases hd : r.decay_enabled
    · exact absurd hd hen
    · rfl
  exact decayed_score_bounds r now hen2

/-- C4 witness: the amended floor theorem at a concrete post-grace
decay application. -/
theorem c4_witness :
    apply_decay c4RepW 17280000 = .ok c4RepWAfter ∧
    (min c4RepW.base_score DECAY_MIN_SCORE ≤ c4RepWAfter.overall_score ∧
     (DECAY_GRACE_PERIOD_DAYS <
         i64SaturatingDiv (i64SaturatingSub 17280000 c4RepW.last_activity) SECONDS_PER_DAY →
       DECAY_MIN_SCORE ≤ c4RepWAfter.overall_score)) :=
  ⟨by decide, c4_decay_floor_amended c4RepW 17280000 c4RepWAfter (by decide)⟩

/-- C2: a successful execute_reputation_proposal call starts from an
Approved proposal, overwrites the overall score, component scores,
stats and payment-proof merkle root of the target reputation with the
proposal payload, marks the proposal Executed, and any second execute
call on the resulting state fails with the status-mismatch error
InsufficientApprovals, leaving nothing mutated. -/
theorem c2_execute_once (ms : MultisigAuthority) (p : MultisigProposal) (r : AgentReputation)
    (now now2 : Int) (ex ex2 : Nat) (p2 : MultisigProposal) (r2 : AgentReputation)
    (h : execute_reputation_proposal ms p r now ex = .ok (p2, r2)) :
    p.status = .Approved ∧
    r2.overall_score = p.proposed_score ∧
    r2.component_scores = p.proposed_components ∧
    r2.stats = p.proposed_stats ∧
    r2.payment_proofs_merkle_root = p.proposed_merkle_root ∧
    p2.status = .Executed ∧
    execute_reputation_proposal ms p2 r2 now2 ex2 = .error .InsufficientApprovals := by
  simp only [execute_reputation_proposal] at h
  split at h
  · exact absurd h (by simp)
  rename_i hstat
  split at h
  · exact absurd h (by simp)
  split at h
  · exact absurd h (by simp)
  split at h
  · exact absurd h (by simp)
  simp only [Except.ok.injEq, Prod.mk.injEq] at h
  obtain ⟨hp2, hr2⟩ := h
  subst hp2
  subst hr2
  have hstat2 : p.status = .Approved := not_not.mp hstat
  exact ⟨hstat2, rfl, rfl, rfl, rfl, rfl, by simp [execute_reputation_proposal]⟩

/-- C2 witness: a concrete approved proposal executes once and the
second execute fails with InsufficientApprovals. -/
theorem c2_witness :
    execute_reputation_proposal cMs5 c2Prop c2Rep 1000 11 = .ok (c2PropAfter, c2RepAfter) ∧
    (c2Prop.status = .Approved ∧
     c2RepAfter.overall_score = c2Prop.proposed_score ∧
     c2RepAfter.component_scores = c2Prop.proposed_components ∧
     c2RepAfter.stats = c2Prop.proposed_stats ∧
     c2RepAfter.payment_proofs_merkle_root = c2Prop.proposed_merkle_root ∧
     c2PropAfter.status = .Executed ∧
     execute_reputation_proposal cMs5 c2PropAfter c2RepAfter 2000 12 =
       .error .InsufficientApprovals) :=
  ⟨by decide, c2_execute_once cMs5 c2Prop c2Rep 1000 2000 11 12 c2PropAfter c2RepAfter (by decide)⟩

/-- C5 counterexample: the claim says any execute call made strictly
later than created_at plus 48 hours fails with ProposalExpired; but
execute_reputation_proposal has no expiry check, and this concrete
Approved proposal created at time 0 executes successfully at time
172801, one second past the deadline. -/
theorem c5_counterexample :
    c2Prop.created_at + PROPOSAL_EXPIRY_SECONDS < 172801 ∧
    execute_reputation_proposal cMs5 c2Prop c2Rep 172801 11 = .ok (c5PropAfter, c5RepAfter) := by
  decide

/-- C5 (amended): expiry is enforced lazily on approval only. Any
approve_proposal call on a Pending proposal made strictly later than
created_at plus 48 hours fails with ProposalExpired and mutates
nothing, while execute_reputation_proposal performs no expiry check at
all: it can never return ProposalExpired, so an already-Approved
proposal remains executable arbitrarily late. No background process
flips a proposal to Expired; statuses change only through these calls. -/
theorem c5_expiry_lazy_amended (ms ms2 : MultisigAuthority) (p p2 : MultisigProposal)
    (r : AgentReputation) (now now2 : Int) (s ex : Nat)
    (hcb : I64MIN ≤ p.created_at)
    (h1 : p.status = .Pending)
    (h2 : p.created_at + PROPOSAL_EXPIRY_SECONDS < now) :
    approve_proposal ms p now s = .error .ProposalExpired ∧
    execute_reputation_proposal ms2 p2 r now2 ex ≠ .error .ProposalExpired := by
  constructor
  · have hnp : ¬ (p.status ≠ ProposalStatus.Pending) := by simp [h1]
    have hexp : p.is_expired now = true := by
      unfold MultisigProposal.is_expired i64SaturatingAdd i64Clamp
      simp only [decide_eq_true_eq]
      simp only [I64MIN, I64MAX, PROPOSAL_EXPIRY_SECONDS] at *
      omega
    simp [approve_proposal, hnp, hexp]
  · intro hcontra
    simp only [execute_reputation_proposal] at hcontra
    split at hcontra
    · simp at hcontra
    split at hcontra
    · simp at hcontra
    split at hcontra
    · simp at hcontra
    split at hcontra
    · simp at hcontra
    simp at hcontra

/-- C5 witness: the amended theorem at a concrete Pending proposal one
second past its deadline, with an unrelated execute call shown to not
return ProposalExpired. -/
theorem c5_witness :
    (I64MIN ≤ (0 : Int) ∧ (0 : Int) + PROPOSAL_EXPIRY_SECONDS < 172801) ∧
    (approve_proposal cMs5 { c2Prop with status := .Pending } 172801 13 =
       .error .ProposalExpired ∧
     execute_reputation_proposal cMs5 c2Prop c2Rep 172801 11 ≠ .error .ProposalExpired) :=
  ⟨⟨by decide, by decide⟩,
   c5_expiry_lazy_amended cMs5 cMs5 { c2Prop with status := .Pending } c2Prop c2Rep
     172801 172801 13 11 (by decide) (by decide) (by decide)⟩

/-- C6 counterexample: the claim says a fourth distinct signer can
still approve after quorum, raising the count to 4 while the status
stays Approved; but the Pending-status account constraint rejects any
approval of a non-Pending proposal, so the fourth approval fails with
ProposalAlreadyExecuted and the count stays 3. -/
theorem c6_counterexample :
    c6P3.status = .Approved ∧
    c6P3.approval_count = 3 ∧
    approve_proposal cMs5 c6P3 30 13 = .error .ProposalAlreadyExecuted := by
  decide

/-- C6 (amended): in the 5-signer threshold-3 multisig, the proposer
auto-approves at creation (count 1, Pending), a second approval keeps
the proposal Pending (count 2), the third distinct approval flips the
status Pending to Approved exactly then (count 3), and a fourth
distinct signer approval is then rejected with ProposalAlreadyExecuted
by the Pending-status constraint instead of succeeding with count 4. -/
theorem c6_quorum_scenario_amended :
    propose_reputation_update cMs5 10 99 777 cComps0 cStats0 42 0 = .ok (cMs5b, c6P1) ∧
    c6P1.approval_count = 1 ∧ c6P1.status = .Pending ∧
    approve_proposal cMs5 c6P1 10 11 = .ok c6P2 ∧
    c6P2.approval_count = 2 ∧ c6P2.status = .Pending ∧
    approve_proposal cMs5 c6P2 20 12 = .ok c6P3 ∧
    c6P3.approval_count = 3 ∧ c6P3.status = .Approved ∧
    approve_proposal cMs5 c6P3 30 13 = .error .ProposalAlreadyExecuted := by
  decide

/-- A u8 bitmap has at most 8 set bits. -/
lemma popCount8_le_8 (b : Nat) : popCount8 b ≤ 8 :=
  le_trans (Finset.card_filter_le _ _) (by simp)

/-- Setting an unset bit below 8 raises the popcount by exactly one. -/
lemma popCount8_or (b i : Nat) (hi : i < 8) (hbit : b.testBit i = false) :
    popCount8 (b ||| (1 <<< i)) = popCount8 b + 1 := by
  have h2 : (1 : Nat) <<< i = 2 ^ i := by rw [Nat.shiftLeft_eq, one_mul]
  rw [h2]
  unfold popCount8
  have hset : (Finset.range 8).filter (fun j => (b ||| 2 ^ i).testBit j = true)
      = insert i ((Finset.range 8).filter (fun j => b.testBit j = true)) := by
    ext j
    simp only [Finset.mem_filter, Finset.mem_insert, Finset.mem_range, Nat.testBit_or,
      Nat.testBit_two_pow, Bool.or_eq_true, decide_eq_true_eq]
    constructor
    · rintro ⟨hj8, hb | hij⟩
      · exact Or.inr ⟨hj8, hb⟩
      · exact Or.inl hij.symm
    · rintro (hij | ⟨hj8, hb⟩)
      · subst hij
        exact ⟨hi, Or.inr rfl⟩
      · exact ⟨hj8, Or.inl hb⟩
  rw [hset, Finset.card_insert_of_not_mem]
  simp [Finset.mem_filter, hbit]

/-- A zero bitwise and against a one-bit mask means the bit is unset. -/
lemma and_shift_eq_zero (b i : Nat) (h : b &&& (1 <<< i) = 0) : b.testBit i = false := by
  rw [Nat.shiftLeft_eq, one_mul, Nat.and_two_pow] at h
  rcases hb : b.testBit i
  · rfl
  · rw [hb] at h
    simp at h

/-- C10: in every reachable proposal the approval count equals the
number of set bits of the approval bitmap, so quorum holds exactly when
at least threshold distinct signer indices have approved. -/
theorem c10_bitmap_count (p : MultisigProposal) (t : Nat) (hreach : ReachableProposal p) :
    p.approval_count = popCount8 p.approval_bitmap ∧
    (p.has_quorum t = true ↔ t ≤ popCount8 p.approval_bitmap) := by
  have hmain : p.approval_count = popCount8 p.approval_bitmap := by
    induction hreach with
    | proposed ms proposer target score comps stats root now ms2 q h7 h =>
      simp only [propose_reputation_update] at h
      split at h
      · exact absurd h (by simp)
      rcases hidx : ms.signers.findIdx? (fun s => s == proposer) with _ | idx
      · simp only [hidx] at h
        exact Except.noConfusion h
      · simp only [hidx] at h
        rcases hcnt : u64CheckedAdd ms.proposal_count 1 with _ | c2
        · simp only [hcnt] at h
          exact Except.noConfusion h
        · simp only [hcnt] at h
          simp only [Except.ok.injEq, Prod.mk.injEq] at h
          obtain ⟨hms2, hq⟩ := h
          subst hq
          have hlt : idx < ms.signers.length := (List.findIdx?_eq_some_iff_findIdx_eq.mp hidx).1
          have hi8 : idx < 8 := by
            unfold MAX_MULTISIG_SIGNERS at h7
            omega
          simp only [MultisigProposal.record_approval, u8SaturatingAdd]
          rw [popCount8_or 0 idx hi8 (by simp)]
          have h0 : popCount8 0 = 0 := by decide
          rw [h0]
          norm_num [U8MAX]
    | approved ms q now s q2 h7 hp h ih =>
      simp only [approve_proposal] at h
      split at h
      · exact absurd h (by simp)
      split at h
      · exact absurd h (by simp)
      split at h
      · exact absurd h (by simp)
      rcases hidx : ms.signers.findIdx? (fun x => x == s) with _ | idx
      · simp only [hidx] at h
        exact Except.noConfusion h
      · simp only [hidx] at h
        split at h
        · exact absurd h (by simp)
        rename_i hhas
        have hand : q.approval_bitmap &&& (1 <<< idx) = 0 := by
          simp [MultisigProposal.has_approved] at hhas
          exact hhas
        have hbit : q.approval_bitmap.testBit idx = false := and_shift_eq_zero _ _ hand
        have hlt : idx < ms.signers.length := (List.findIdx?_eq_some_iff_findIdx_eq.mp hidx).1
        have hi8 : idx < 8 := by
          unfold MAX_MULTISIG_SIGNERS at h7
          omega
        have hle8 : popCount8 q.approval_bitmap ≤ 8 := popCount8_le_8 _
        split at h <;>
          (simp only [Except.ok.injEq] at h
           subst h
           simp only [MultisigProposal.record_approval, u8SaturatingAdd, U8MAX]
           rw [ih, popCount8_or _ idx hi8 hbit]
           omega)
  refine ⟨hmain, ?_⟩
  simp [MultisigProposal.has_quorum, hmain]

/-- C10 witness: the freshly proposed concrete proposal has one
approval and one set bit, and the quorum test agrees with the popcount
comparison. -/
theorem c10_witness :
    c6P1.approval_count = popCount8 c6P1.approval_bitmap ∧
    (c6P1.has_quorum 3 = true ↔ 3 ≤ popCount8 c6P1.approval_bitmap) :=
  c10_bitmap_count c6P1 3
    (ReachableProposal.proposed cMs5 10 99 777 cComps0 cStats0 42 0 cMs5b c6P1
      (by decide) (by decide))
